import Mathlib

/-!
Verification development for the Shop-AI backend: a shallow embedding of the
agent orchestration loop and its semantic-retrieval tool layer
(`backend/pinecone_service.py`, `backend/groq_service.py`,
`backend/agent_service.py`), together with theorems about the embedded
operations.

Modelling conventions:
* Python machine floats are modelled as rationals (`ℚ`); Python ints as `ℤ`
  (or `ℕ` where the source only ever passes non-negative counts).
* Fallible calls (network calls to the vector index and the chat-completion
  provider, Pydantic validation) are modelled as `Except String α`; a caught
  Python exception `e` corresponds to `.error msg` where `msg` models `str(e)`
  (which may be the empty string).
* External collaborators (the vector index, the chat-completion provider) are
  modelled as oracle functions passed in as parameters; the database session is
  modelled as explicit lists of rows.
-/

namespace ShopAI

/-! ### Python rounding: `round(x, 4)` rounds to four decimal places,
ties going to the even integer (banker's rounding). -/

/-- Round a rational to the nearest integer, ties to even
(the semantics of Python's built-in `round`). -/
def roundHalfEven (q : ℚ) : ℤ :=
  if q - ⌊q⌋ < 1/2 then ⌊q⌋
  else if 1/2 < q - ⌊q⌋ then ⌊q⌋ + 1
  else if ⌊q⌋ % 2 = 0 then ⌊q⌋ else ⌊q⌋ + 1

/-- Python's `round(q, 4)`: scale by `10^4`, round half to even, scale back. -/
def pyRound4 (q : ℚ) : ℚ := (roundHalfEven (q * 10000) : ℚ) / 10000

/-! ### Catalog data model (`backend/models.py`, `backend/schemas.py`) -/

/-- Row of the `products` table (`models.Product`); only the columns the core
reads.  `created_at` timestamps are abstract ticks. -/
structure Product where
  id : ℤ
  name : String
  description : Option String := none
  price : ℚ
  category : String
  brand : Option String := none
  image_url : Option String := none
  stock_quantity : ℤ := 0
  is_active : Bool := true
  created_at : ℕ := 0
deriving Repr, DecidableEq

/-- `schemas.ProductResponse`: the projection of a product row that tools and
search return. -/
structure ProductResponse where
  id : ℤ
  name : String
  description : Option String
  price : ℚ
  category : String
  brand : Option String
  image_url : Option String
  stock_quantity : ℤ
  is_active : Bool
  created_at : ℕ
deriving Repr, DecidableEq

/-- `ProductResponse.model_validate(product)`: field-for-field projection. -/
def ProductResponse.ofProduct (p : Product) : ProductResponse :=
  { id := p.id, name := p.name, description := p.description, price := p.price
  , category := p.category, brand := p.brand, image_url := p.image_url
  , stock_quantity := p.stock_quantity, is_active := p.is_active
  , created_at := p.created_at }

/-- Row of the `orders` table (`models.Order`); only the columns the core
reads. -/
structure Order where
  id : ℤ
  user_id : ℤ
  total_amount : ℚ
  status : String := "pending"
  shipping_address : String
  created_at : ℕ := 0
deriving Repr, DecidableEq

/-! ### Semantic retrieval (`backend/pinecone_service.py`) -/

/-- One match returned by a vector-index query.  Vector ids are written as
`str(product.id)` at indexing time and re-parsed with `int(match.id)` at
search time, so we model them directly as integers. -/
structure VectorMatch where
  id : ℤ
  score : ℚ
deriving Repr, DecidableEq

/-- `pinecone_service.SearchResult`: a product projection paired with a
similarity score.  The Pydantic field constraint `ge=0, le=1` is enforced by
the validating constructor `mkSearchResult` below. -/
structure SearchResult where
  product : ProductResponse
  similarity : ℚ
deriving Repr, DecidableEq

/-- Pydantic construction of `SearchResult`: validation of the
`similarity: float = Field(..., ge=0, le=1)` constraint; constructing an
out-of-range score raises a `ValidationError`. -/
def mkSearchResult (p : ProductResponse) (sim : ℚ) : Except String SearchResult :=
  if 0 ≤ sim ∧ sim ≤ 1 then .ok ⟨p, sim⟩ else .error "ValidationError"

/-- The metadata filter sent to the vector index
(`PineconeService._build_filter`). -/
structure PineFilter where
  category : Option String := none
  price_gte : Option ℚ := none
  price_lte : Option ℚ := none
deriving Repr, DecidableEq

/-- `PineconeService._build_filter`: category equality filter (only when the
category string is truthy, i.e. non-empty) plus inclusive price bounds;
`None` when no component is present. -/
def buildFilter (category_filter : Option String) (min_price max_price : Option ℚ) :
    Option PineFilter :=
  let catF : Option String :=
    match category_filter with
    | some c => if c = "" then none else some c
    | none => none
  if catF = none ∧ min_price = none ∧ max_price = none then none
  else some { category := catF, price_gte := min_price, price_lte := max_price }

/-- The vector index as an oracle: a query text, a `top_k` bound and an
optional metadata filter determine the list of matches the index returns. -/
abbrev VectorIndex : Type := String → ℕ → Option PineFilter → List VectorMatch

/-- `PineconeService._product_to_text`: space-join of the non-empty parts. -/
def productToText (p : Product) : String :=
  let parts := [p.name, p.description.getD "", p.category, p.brand.getD "",
                "price $" ++ toString p.price]
  String.intercalate " " (parts.filter (fun s => s ≠ ""))

/-- The per-match body of the result loop in `PineconeService.search`, as a
pure step: keep a match iff its raw score passes `min_score` and its catalog
row exists and is active; the returned similarity is the rounded raw score. -/
def searchStep (products : List Product) (minScore : ℚ) (m : VectorMatch) :
    Option SearchResult :=
  if m.score ≥ minScore then
    match products.find? (fun p => p.id == m.id) with
    | some p =>
        if p.is_active then
          some ⟨ProductResponse.ofProduct p, pyRound4 m.score⟩
        else none
    | none => none
  else none

/-- The result loop of `PineconeService.search`, with Pydantic validation of
each constructed `SearchResult` (an out-of-range rounded score raises). -/
def searchLoop (products : List Product) (minScore : ℚ) :
    List VectorMatch → Except String (List SearchResult)
  | [] => .ok []
  | m :: rest =>
    if m.score ≥ minScore then
      match products.find? (fun p => p.id == m.id) with
      | some p =>
          if p.is_active then
            match mkSearchResult (ProductResponse.ofProduct p) (pyRound4 m.score) with
            | .ok r =>
                match searchLoop products minScore rest with
                | .ok rs => .ok (r :: rs)
                | .error e => .error e
            | .error e => .error e
          else searchLoop products minScore rest
      | none => searchLoop products minScore rest
    else searchLoop products minScore rest

/-- `PineconeService.search`: query the index oracle with the built filter,
then run the result loop.  `min_score` defaults to the configured
`search_min_score = 0.3`. -/
def PineconeService.search (index : VectorIndex) (products : List Product)
    (query : String) (top_k : ℕ := 10) (category_filter : Option String := none)
    (min_price : Option ℚ := none) (max_price : Option ℚ := none)
    (min_score : Option ℚ := none) : Except String (List SearchResult) :=
  let ms := min_score.getD (3/10)
  let hits := index query top_k (buildFilter category_filter min_price max_price)
  searchLoop products ms hits

/-- `PineconeService.find_similar_products`: build a query from the item's own
text, search with `top_k + 1` and the lowered floor `0.2`, drop the source
item, truncate to `top_k`. -/
def PineconeService.find_similar_products (index : VectorIndex)
    (products : List Product) (product_id : ℤ) (top_k : ℕ := 5) :
    Except String (List SearchResult) :=
  match products.find? (fun p => p.id == product_id) with
  | none => .ok []
  | some p =>
    match PineconeService.search index products (productToText p) (top_k + 1)
        none none none (some (2/10)) with
    | .ok results =>
        .ok ((results.filter (fun r => r.product.id != product_id)).take top_k)
    | .error e => .error e

/-! ### Language-model gateway (`backend/groq_service.py`, `backend/schemas.py`) -/

/-- `schemas.Intent`: the closed intent enumeration. -/
inductive Intent where
  | product_search
  | product_recommendation
  | product_details
  | order_help
  | order_status
  | general_question
  | greeting
  | farewell
  | complaint
  | unknown
deriving Repr, DecidableEq

/-- `Intent(intent_str)`: look up an enumeration member by its string value;
`none` models the `ValueError` raised for an unrecognised string. -/
def Intent.ofString? : String → Option Intent
  | "product_search" => some .product_search
  | "product_recommendation" => some .product_recommendation
  | "product_details" => some .product_details
  | "order_help" => some .order_help
  | "order_status" => some .order_status
  | "general_question" => some .general_question
  | "greeting" => some .greeting
  | "farewell" => some .farewell
  | "complaint" => some .complaint
  | "unknown" => some .unknown
  | _ => none

/-- `schemas.ExtractedEntities`: all fields optional; absence means "not
mentioned".  The free-form `attributes` mapping is modelled as an association
list. -/
structure ExtractedEntities where
  product_names : Option (List String) := none
  categories : Option (List String) := none
  brands : Option (List String) := none
  price_min : Option ℚ := none
  price_max : Option ℚ := none
  order_id : Option ℤ := none
  quantity : Option ℤ := none
  attributes : Option (List (String × String)) := none
deriving Repr, DecidableEq

/-- `schemas.IntentClassificationResult`. -/
structure IntentClassificationResult where
  intent : Intent
  confidence : ℚ
  entities : ExtractedEntities
  requires_clarification : Bool := false
  clarification_question : Option String := none
deriving Repr, DecidableEq

/-- The JSON object parsed out of the classifier's chat completion, with the
optional fields `classify_intent` reads via `result.get(...)`.  Entities are
carried already validated: a failing `ExtractedEntities.model_validate`, like
a transport or `json.loads` failure, is folded into the surrounding
`Except.error` (all of them land in the same `except` block). -/
structure RawClassification where
  intent : Option String := none
  confidence : Option ℚ := none
  entities : ExtractedEntities := {}
  requires_clarification : Option Bool := none
  clarification_question : Option String := none
deriving Repr, DecidableEq

/-- `GroqLLMService.classify_intent`.  `providerResult` is the outcome of the
chat-completion call together with JSON parsing and entity validation;
`message` and `history` only shape that call and are otherwise unused. -/
def classify_intent (_message : String) (_history : List (String × String))
    (providerResult : Except String RawClassification) :
    IntentClassificationResult :=
  match providerResult with
  | .ok raw =>
      let intent :=
        match Intent.ofString? (raw.intent.getD "unknown") with
        | some i => i
        | none => Intent.unknown
      { intent := intent
      , confidence := raw.confidence.getD (1/2)
      , entities := raw.entities
      , requires_clarification := raw.requires_clarification.getD false
      , clarification_question := raw.clarification_question }
  | .error _ =>
      { intent := Intent.unknown
      , confidence := 0
      , entities := {}
      , requires_clarification := true
      , clarification_question :=
          some "I\x27m not sure I understood that. Could you please rephrase?" }

/-! #### Tool-augmented completion (`GroqLLMService.call_with_tools`) -/

/-- The argument mapping of a tool call.  The embedding records the keys the
tool layer actually reads, each optional (`none` models an absent key; note
`some ""`/`some 0` model a key that is present but falsy). -/
structure ToolArgs where
  query : Option String := none
  category : Option String := none
  min_price : Option ℚ := none
  max_price : Option ℚ := none
  limit : Option ℤ := none
  product_id : Option ℤ := none
  product_name : Option String := none
  order_id : Option ℤ := none
  preferences : Option String := none
deriving Repr, DecidableEq

/-- One tool call inside the provider's chat-completion message.
`arguments` is the outcome of `json.loads(tool_call.function.arguments)`:
`.error` models malformed JSON (raising inside the `try`). -/
structure ProviderToolCall where
  id : String
  name : String
  arguments : Except String ToolArgs
deriving Repr

/-- The provider's chat-completion message: optional text content and an
optional tool-call list (`None` and `[]` are both falsy). -/
structure ProviderMessage where
  content : Option String := none
  tool_calls : Option (List ProviderToolCall) := none
deriving Repr

/-- `groq_service.ToolCallRequest` (already dumped to a plain mapping). -/
structure ToolCallRequest where
  call_id : String
  tool_name : String
  arguments : ToolArgs
deriving Repr, DecidableEq

/-- `groq_service.LLMResponse`. -/
structure LLMResponse where
  content : String
  tool_calls : Option (List ToolCallRequest) := none
deriving Repr, DecidableEq

/-- The `for tool_call in response_message.tool_calls` loop: parse each
call's arguments in order; the first `json.loads` failure aborts the whole
`try` block. -/
def parseToolCalls : List ProviderToolCall → Except String (List ToolCallRequest)
  | [] => .ok []
  | tc :: rest =>
    match tc.arguments with
    | .ok args =>
        match parseToolCalls rest with
        | .ok reqs => .ok ({ call_id := tc.id, tool_name := tc.name, arguments := args } :: reqs)
        | .error e => .error e
    | .error e => .error e

/-- `GroqLLMService.call_with_tools`.  `providerResult` is the outcome of the
chat-completion call; the `except` block turns any raised error into final
text. -/
def call_with_tools (providerResult : Except String ProviderMessage) : LLMResponse :=
  match providerResult with
  | .ok msg =>
      match msg.tool_calls with
      | some (tc :: tcs) =>
          match parseToolCalls (tc :: tcs) with
          | .ok reqs => { content := "", tool_calls := some reqs }
          | .error e => { content := "I encountered an error: " ++ e, tool_calls := none }
      | _ => { content := msg.content.getD "", tool_calls := none }
  | .error e => { content := "I encountered an error: " ++ e, tool_calls := none }

/-! ### Tool execution layer (`agent_service.ShopAgent.execute_tool`) -/

/-- The serialisable payload carried in `ToolResult.result` (Python `Any`).
List-shaped payloads keep their element shape: product dictionaries (from
`_search_result_to_dict`, a product dump plus a `similarity` key) carry an
`id` key; order dictionaries carry `order_id` instead. -/
inductive ResultPayload where
  | searchList : List (ProductResponse × ℚ) → ResultPayload
  | productDetail : ProductResponse → ResultPayload
  | orderStatus : (order_id : ℤ) → (status : String) → (total_amount : ℚ) →
      (created_at : ℕ) → (shipping_address : String) → ResultPayload
  | ordersList : List (ℤ × String × ℚ × ℕ) → ResultPayload
deriving Repr, DecidableEq

/-- `schemas.ToolResult`. -/
structure ToolResult where
  call_id : String
  tool_name : String
  result : Option ResultPayload
  success : Bool
  error_message : Option String := none
deriving Repr, DecidableEq

/-- The database session restricted to the tables `execute_tool` reads. -/
structure Db where
  products : List Product := []
  orders : List Order := []
deriving Repr, DecidableEq

/-- The retrieval service as seen from the tool layer: fallible calls to
`PineconeService.search` (query, top_k, category filter, price bounds) and
`PineconeService.find_similar_products` (product id, top_k).  An `.error`
models an exception raised by the downstream call, carrying `str(e)`. -/
structure ToolEnv where
  search : String → ℤ → Option String → Option ℚ → Option ℚ →
      Except String (List SearchResult)
  findSimilar : ℤ → ℤ → Except String (List SearchResult)

/-- Python truthiness of an optional integer (`None` and `0` are falsy). -/
def truthyInt : Option ℤ → Bool
  | none => false
  | some n => n != 0

/-- Python truthiness of an optional string (`None` and `""` are falsy). -/
def truthyStr : Option String → Bool
  | none => false
  | some s => s != ""

/-- `ShopAgent._search_result_to_dict`: product dump plus similarity key. -/
def searchResultToDict (r : SearchResult) : ProductResponse × ℚ :=
  (r.product, r.similarity)

/-- The tools registered in `AgentToolkit.TOOLS`. -/
def registeredTools : List String :=
  ["search_products", "get_product_details", "get_recommendations",
   "check_order_status", "get_user_orders"]

/-- The local `product` variable of the `get_product_details` branch of
`ShopAgent.execute_tool`: catalog lookup by (truthy) id with an `is_active`
filter, else a `top_1` semantic search by (truthy) name followed by an
unfiltered catalog re-lookup, else nothing. -/
def getProductDetailsLookup (env : ToolEnv) (db : Db) (args : ToolArgs) :
    Except String (Option Product) :=
  if truthyInt args.product_id then
    .ok (db.products.find? (fun p =>
      p.id == args.product_id.getD 0 && p.is_active))
  else if truthyStr args.product_name then
    match env.search (args.product_name.getD "") 1 none none none with
    | .ok (r :: _) => .ok (db.products.find? (fun p => p.id == r.product.id))
    | .ok [] => .ok none
    | .error e => .error e
  else .ok none

/-- The local `results` variable of the `get_recommendations` branch of
`ShopAgent.execute_tool`: similar-item lookup by (truthy) product id, else a
semantic search on the preference/category text, else the first five active
catalog rows with similarity `1.0`. -/
def getRecommendationResults (env : ToolEnv) (db : Db) (args : ToolArgs) :
    Except String (List SearchResult) :=
  if truthyInt args.product_id then
    env.findSimilar (args.product_id.getD 0) (args.limit.getD 5)
  else if truthyStr args.preferences || truthyStr args.category then
    let query :=
      match args.preferences with
      | some s => s
      | none => args.category.getD ""
    env.search query (args.limit.getD 5) args.category none none
  else
    .ok (((db.products.filter (fun p => p.is_active)).take 5).map
      (fun p => ⟨ProductResponse.ofProduct p, 1⟩))

/-- `ShopAgent.execute_tool`.  Total: every path, including unknown tool
names, missing required arguments, missing entities, unauthenticated callers
and downstream exceptions, yields a `ToolResult`; the surrounding
`try`/`except` turns a raised exception `e` into a failure carrying `str(e)`.
`callId` models the generated `uuid4` correlation id. -/
def executeTool (env : ToolEnv) (db : Db) (callId : String) (toolName : String)
    (args : ToolArgs) (userId : Option ℤ) : ToolResult :=
  match toolName with
  | "search_products" =>
      match env.search (args.query.getD "") (min (args.limit.getD 5) 10)
          args.category args.min_price args.max_price with
      | .ok results =>
          { call_id := callId, tool_name := toolName
          , result := some (.searchList (results.map searchResultToDict))
          , success := true }
      | .error e =>
          { call_id := callId, tool_name := toolName, result := none
          , success := false, error_message := some e }
  | "get_product_details" =>
      match getProductDetailsLookup env db args with
      | .ok (some p) =>
          { call_id := callId, tool_name := toolName
          , result := some (.productDetail (ProductResponse.ofProduct p))
          , success := true }
      | .ok none =>
          { call_id := callId, tool_name := toolName, result := none
          , success := false, error_message := some "Product not found" }
      | .error e =>
          { call_id := callId, tool_name := toolName, result := none
          , success := false, error_message := some e }
  | "get_recommendations" =>
      match getRecommendationResults env db args with
      | .ok results =>
          { call_id := callId, tool_name := toolName
          , result := some (.searchList (results.map searchResultToDict))
          , success := true }
      | .error e =>
          { call_id := callId, tool_name := toolName, result := none
          , success := false, error_message := some e }
  | "check_order_status" =>
      match args.order_id with
      | none =>
          -- `arguments["order_id"]` raises `KeyError('order_id')`; the
          -- `except` block stores `str(e)`, which is `"'order_id'"`.
          { call_id := callId, tool_name := toolName, result := none
          , success := false, error_message := some "\x27order_id\x27" }
      | some oid =>
          match db.orders.find? (fun o => o.id == oid) with
          | some o =>
              { call_id := callId, tool_name := toolName
              , result := some (.orderStatus o.id o.status o.total_amount
                  o.created_at o.shipping_address)
              , success := true }
          | none =>
              { call_id := callId, tool_name := toolName, result := none
              , success := false, error_message := some "Order not found" }
  | "get_user_orders" =>
      if truthyInt userId then
        let orders := db.orders.filter (fun o => o.user_id == userId.getD 0)
        { call_id := callId, tool_name := toolName
        , result := some (.ordersList (orders.map (fun o =>
            (o.id, o.status, o.total_amount, o.created_at))))
        , success := true }
      else
        { call_id := callId, tool_name := toolName, result := none
        , success := false, error_message := some "Please log in to view your orders" }
  | _ =>
      { call_id := callId, tool_name := toolName, result := none
      , success := false, error_message := some ("Unknown tool: " ++ toolName) }

/-! ### Conversation state store (`ShopAgent._save_message`,
`ShopAgent._get_conversation_history`, `models.ConversationMessage`) -/

/-- Row of the `conversation_messages` table.  The serialized JSON columns
(`entities`, `tool_calls`, `tool_results`) are carried as opaque strings
(`json.dumps` applied by the caller); `created_at` is an abstract clock
tick supplied by the store. -/
structure ConversationMessage where
  id : ℕ
  session_id : String
  role : String
  content : String
  intent : Option String := none
  entities : Option String := none
  tool_calls : Option String := none
  tool_results : Option String := none
  created_at : ℕ
deriving Repr, DecidableEq

/-- The message table in insertion order. -/
abbrev MessageStore : Type := List ConversationMessage

/-- `ShopAgent._save_message`: insert a new row (auto-increment id, current
timestamp); an append to the table. -/
def saveMessage (store : MessageStore) (session_id role content : String)
    (intent entities tool_calls tool_results : Option String) (now : ℕ) :
    MessageStore :=
  store ++ [{ id := store.length, session_id := session_id, role := role
            , content := content, intent := intent, entities := entities
            , tool_calls := tool_calls, tool_results := tool_results
            , created_at := now }]

/-- `ShopAgent._get_conversation_history`: filter by session, order by
`created_at` descending (modelled as a stable descending merge sort), keep
the most recent `limit`, reverse back to chronological order, and project
role/content pairs. -/
def getConversationHistory (store : MessageStore) (session_id : String)
    (limit : ℕ := 20) : List (String × String) :=
  let msgs := (store.filter (fun m => m.session_id == session_id)).mergeSort
    (fun a b => decide (b.created_at ≤ a.created_at))
  ((msgs.take limit).reverse).map (fun m => (m.role, m.content))

/-! ### Agent orchestrator (`ShopAgent.process_message`) -/

/-- One entry of `accumulated_results`: the dictionary
`{"tool": name, "result": result.result}`. -/
structure AccumEntry where
  tool : String
  result : Option ResultPayload
deriving Repr, DecidableEq

/-- The suggestion extraction inside the tool loop: for a successful
list-shaped tool result, take the first 5 items, and for each item carrying
an `id` key (product dictionaries do, order dictionaries only have
`order_id`) re-hydrate the product from the catalog store. -/
def extractSuggestions (db : Db) (success : Bool) (payload : Option ResultPayload) :
    List ProductResponse :=
  if success then
    match payload with
    | some (.searchList items) =>
        (items.take 5).filterMap (fun it =>
          (db.products.find? (fun p => p.id == it.1.id)).map ProductResponse.ofProduct)
    | _ => []
  else []

/-- Outcome of the tool loop: how many times `call_with_tools` was invoked,
the response text set by a text round (`""` when none was set), and the four
accumulators. -/
structure LoopOut where
  calls : ℕ
  text : String
  accumulated : List AccumEntry
  tool_results : List ToolResult
  tool_calls_made : List String
  suggestions : List ProductResponse
deriving Repr

/-- Executing one round's tool-call list sequentially (the `for tool_call in
llm_response.tool_calls` body), threading the four accumulators. -/
def execRound (exec : String → ToolArgs → ToolResult) (db : Db)
    (st : List AccumEntry × List ToolResult × List String × List ProductResponse) :
    List ToolCallRequest →
      List AccumEntry × List ToolResult × List String × List ProductResponse
  | [] => st
  | tc :: rest =>
    let r := exec tc.tool_name tc.arguments
    execRound exec db
      (st.1 ++ [{ tool := tc.tool_name, result := r.result }],
       st.2.1 ++ [r],
       st.2.2.1 ++ [tc.tool_name],
       st.2.2.2 ++ extractSuggestions db r.success r.result)
      rest

/-- The `while iteration < max_tool_iterations` loop of the
product-intent branch.  `oracle` models `call_with_tools` as a function of
the accumulated tool results (the only part of the prompt that changes
between rounds); `fuel` is `max_tool_iterations - iteration`. -/
def toolLoopAux (oracle : List AccumEntry → LLMResponse)
    (exec : String → ToolArgs → ToolResult) (db : Db) :
    ℕ → List AccumEntry → List ToolResult → List String → List ProductResponse →
      LoopOut
  | 0, acc, tr, tcm, sugg =>
      { calls := 0, text := "", accumulated := acc, tool_results := tr
      , tool_calls_made := tcm, suggestions := sugg }
  | fuel + 1, acc, tr, tcm, sugg =>
    let resp := oracle acc
    match resp.tool_calls with
    | some (tc :: tcs) =>
        let st := execRound exec db (acc, tr, tcm, sugg) (tc :: tcs)
        let out := toolLoopAux oracle exec db fuel st.1 st.2.1 st.2.2.1 st.2.2.2
        { out with calls := out.calls + 1 }
    | _ =>
        -- `if llm_response.content: response = ...` then unconditional `break`
        if resp.content ≠ "" then
          { calls := 1, text := resp.content, accumulated := acc
          , tool_results := tr, tool_calls_made := tcm, suggestions := sugg }
        else
          { calls := 1, text := "", accumulated := acc, tool_results := tr
          , tool_calls_made := tcm, suggestions := sugg }

/-- The product-intent branch of `process_message`: run the tool loop from
empty accumulators, then, if no round produced text, fall back to
`generate_response` grounded on the accumulated tool results (`genResp`
models `generate_response` as a function of that grounding context). -/
def runToolLoop (oracle : List AccumEntry → LLMResponse)
    (exec : String → ToolArgs → ToolResult) (db : Db)
    (genResp : List AccumEntry → String) (maxIter : ℕ) : String × LoopOut :=
  let out := toolLoopAux oracle exec db maxIter [] [] [] []
  let response := if out.text ≠ "" then out.text else genResp out.accumulated
  (response, out)

/-- The `order_help`/`order_status` branch of `process_message`: pick the
single tool call (order id from the entities first, then the authenticated
caller, else nothing) and synthesize the response from whatever was
gathered. -/
def orderLookupBranch (entities : ExtractedEntities) (userId : Option ℤ)
    (exec : String → ToolArgs → ToolResult)
    (genResp : List AccumEntry → String) :
    String × List ToolResult × List String × List AccumEntry :=
  let gathered : List ToolResult × List String × List AccumEntry :=
    if truthyInt entities.order_id then
      let r := exec "check_order_status" { order_id := entities.order_id }
      ([r], ["check_order_status"], [{ tool := "check_order_status", result := r.result }])
    else if truthyInt userId then
      let r := exec "get_user_orders" {}
      ([r], ["get_user_orders"], [{ tool := "get_user_orders", result := r.result }])
    else ([], [], [])
  (genResp gathered.2.2, gathered)

/-- `ShopAgent._get_follow_up_questions`: static per-intent lookup. -/
def getFollowUpQuestions : Intent → Option (List String)
  | .product_search =>
      some ["Would you like me to filter by price range?",
            "Should I show more options?",
            "Want details about any of these products?"]
  | .product_recommendation =>
      some ["Would you like me to filter by price range?",
            "Should I show more options?",
            "Want details about any of these products?"]
  | .product_details =>
      some ["Would you like to see similar products?",
            "Any questions about this product?"]
  | _ => none

/-- `schemas.AgentChatResponse`. -/
structure AgentChatResponse where
  response : String
  session_id : String
  intent : Intent
  entities : ExtractedEntities
  suggestions : Option (List ProductResponse) := none
  tool_calls_made : Option (List String) := none
  follow_up_questions : Option (List String) := none
deriving Repr, DecidableEq

/-- Assembly of the response bundle for an order-intent turn
(`process_message`, final `return`): empty lists are mapped to `None` by the
`x if x else None` truthiness idiom, and the suggestion accumulator is never
touched in this branch. -/
def processOrderIntent (sessionId : String) (intent : Intent)
    (entities : ExtractedEntities) (userId : Option ℤ)
    (exec : String → ToolArgs → ToolResult)
    (genResp : List AccumEntry → String) : AgentChatResponse :=
  let b := orderLookupBranch entities userId exec genResp
  { response := b.1
  , session_id := sessionId
  , intent := intent
  , entities := entities
  , suggestions := none
  , tool_calls_made := if b.2.2.1 = [] then none else some b.2.2.1
  , follow_up_questions := getFollowUpQuestions intent }

/-! ### Concrete fixtures (catalog rows, oracle stubs) used to evaluate the
embedded operations on closed inputs -/

/-- A sample active catalog row. -/
def prodA : Product :=
  { id := 1, name := "Wireless Headphones", description := some "Over-ear"
  , price := 99, category := "electronics", brand := some "Acme"
  , stock_quantity := 5, is_active := true, created_at := 0 }

/-- A vector index holding a single well-scored match for `prodA`. -/
def idx1 : VectorIndex := fun _ _ _ => [{ id := 1, score := 9/10 }]

/-- A retrieval service whose every call raises an exception whose text is
`msg` (so `str(e) = msg`). -/
def envErr (msg : String) : ToolEnv :=
  { search := fun _ _ _ _ _ => .error msg
  , findSimilar := fun _ _ => .error msg }

/-- A search hit used by the instrumented retrieval stub. -/
def probeHit : SearchResult :=
  { product := ProductResponse.ofProduct prodA, similarity := 1 }

/-- An instrumented retrieval service that returns exactly as many hits as
the `top_k` it was asked for, making the requested result count observable
in the tool output. -/
def envProbe : ToolEnv :=
  { search := fun _ k _ _ _ => .ok (List.replicate k.toNat probeHit)
  , findSimilar := fun _ k => .ok (List.replicate k.toNat probeHit) }

/-- A concrete tool executor (the failing retrieval service, empty stores). -/
def execFix : String → ToolArgs → ToolResult :=
  fun n a => executeTool (envErr "boom") {} "cid" n a none

/-- A response generator stub. -/
def genRespFix : List AccumEntry → String := fun _ => "Here is what I found."

/-- A sample order row. -/
def orderA : Order :=
  { id := 42, user_id := 7, total_amount := 250, status := "pending"
  , shipping_address := "1 Main St", created_at := 5 }

/-- A database session holding the sample order. -/
def dbOrder : Db := { orders := [orderA] }

/-- A gateway stub whose tool-augmented completion immediately returns final
text. -/
def oracleFix : List AccumEntry → LLMResponse :=
  fun _ => { content := "Here are the results", tool_calls := none }

/-! ### Batched persistence helpers used to state the round-trip property -/

/-- One `_save_message` call: the caller-supplied fields plus the clock tick
at which the row is stamped. -/
structure WriteReq where
  role : String
  content : String
  intent : Option String := none
  entities : Option String := none
  tool_calls : Option String := none
  tool_results : Option String := none
  ts : ℕ
deriving Repr, DecidableEq

/-- Perform a sequence of `_save_message` calls for one session. -/
def saveAll (store : MessageStore) (sid : String) : List WriteReq → MessageStore
  | [] => store
  | w :: ws =>
      saveAll (saveMessage store sid w.role w.content w.intent w.entities
        w.tool_calls w.tool_results w.ts) sid ws

/-- The row `_save_message` inserts for write `w` when the table holds `n`
rows (auto-increment id `n`). -/
def mkMessage (sid : String) (w : WriteReq) (n : ℕ) : ConversationMessage :=
  { id := n, session_id := sid, role := w.role, content := w.content
  , intent := w.intent, entities := w.entities, tool_calls := w.tool_calls
  , tool_results := w.tool_results, created_at := w.ts }

/-- The rows a sequence of writes inserts, ids counting up from `n`. -/
def mkMessages (sid : String) : List WriteReq → ℕ → List ConversationMessage
  | [], _ => []
  | w :: ws, n => mkMessage sid w n :: mkMessages sid ws (n + 1)

/-! ## Theorems -/

/-! ### Rounding lemmas -/

theorem roundHalfEven_intCast (n : ℤ) : roundHalfEven (n : ℚ) = n := by
  simp [roundHalfEven]

theorem roundHalfEven_mono {q r : ℚ} (h : q ≤ r) :
    roundHalfEven q ≤ roundHalfEven r := by
  have hf : ⌊q⌋ ≤ ⌊r⌋ := Int.floor_le_floor h
  rcases eq_or_lt_of_le hf with heq | hlt
  · unfold roundHalfEven
    rw [← heq]
    have h1 : q - (⌊q⌋ : ℚ) ≤ r - (⌊q⌋ : ℚ) := by linarith
    split_ifs <;> first | omega | (exfalso; linarith)
  · have hL : roundHalfEven q ≤ ⌊q⌋ + 1 := by
      unfold roundHalfEven; split_ifs <;> omega
    have hR : ⌊r⌋ ≤ roundHalfEven r := by
      unfold roundHalfEven; split_ifs <;> omega
    omega

theorem pyRound4_mono {q r : ℚ} (h : q ≤ r) : pyRound4 q ≤ pyRound4 r := by
  unfold pyRound4
  have h1 : roundHalfEven (q * 10000) ≤ roundHalfEven (r * 10000) :=
    roundHalfEven_mono (by nlinarith)
  have h2 : ((roundHalfEven (q * 10000) : ℚ)) ≤ ((roundHalfEven (r * 10000) : ℚ)) := by
    exact_mod_cast h1
  linarith

theorem pyRound4_intDiv (k : ℤ) : pyRound4 ((k : ℚ) / 10000) = (k : ℚ) / 10000 := by
  unfold pyRound4
  rw [div_mul_cancel₀ (k : ℚ) (by norm_num), roundHalfEven_intCast]

theorem pyRound4_zero : pyRound4 0 = 0 := by
  have := pyRound4_intDiv 0
  norm_num at this
  exact this

theorem pyRound4_one : pyRound4 1 = 1 := by
  have := pyRound4_intDiv 10000
  norm_num at this
  exact this

theorem pyRound4_nonneg {q : ℚ} (h : 0 ≤ q) : 0 ≤ pyRound4 q := by
  have := pyRound4_mono h
  rwa [pyRound4_zero] at this

theorem pyRound4_le_one {q : ℚ} (h : q ≤ 1) : pyRound4 q ≤ 1 := by
  have := pyRound4_mono h
  rwa [pyRound4_one] at this

theorem pyRound4_ge_exact {m q : ℚ} (k : ℤ) (hk : m = (k : ℚ) / 10000)
    (h : m ≤ q) : m ≤ pyRound4 q := by
  have := pyRound4_mono h
  rwa [hk, pyRound4_intDiv, ← hk] at this

/-! ### Search result-loop characterization -/

theorem searchStep_eq_some {products : List Product} {minScore : ℚ}
    {m : VectorMatch} {r : SearchResult}
    (h : searchStep products minScore m = some r) :
    minScore ≤ m.score ∧ r.similarity = pyRound4 m.score ∧
    ∃ p, products.find? (fun p0 => p0.id == m.id) = some p
      ∧ p.is_active = true ∧ r.product = ProductResponse.ofProduct p
      ∧ r.product.id = m.id := by
  unfold searchStep at h
  split at h
  case isTrue hsc =>
    split at h
    case h_1 p heq =>
      split at h
      case isTrue hact =>
        cases h
        have hpid : p.id = m.id := by
          have := List.find?_some heq
          simpa using this
        exact ⟨hsc, rfl, p, heq, hact, rfl, by
          simpa [ProductResponse.ofProduct] using hpid⟩
      case isFalse hact => exact absurd h (by simp)
    case h_2 heq => exact absurd h (by simp)
  case isFalse hsc => exact absurd h (by simp)

theorem searchLoop_ok_eq (products : List Product) (minScore : ℚ) :
    ∀ (ms : List VectorMatch) (l : List SearchResult),
      searchLoop products minScore ms = Except.ok l →
      l = ms.filterMap (searchStep products minScore) := by
  intro ms
  induction ms with
  | nil =>
      intro l h
      simp only [searchLoop] at h
      cases h
      simp
  | cons m rest ih =>
      intro l h
      simp only [searchLoop] at h
      rw [List.filterMap_cons]
      split at h
      case isTrue hsc =>
        split at h
        case h_1 p heq =>
          split at h
          case isTrue hact =>
            split at h
            case h_1 r hmk =>
              split at h
              case h_1 rs hrec =>
                cases h
                have hstep : searchStep products minScore m =
                    some ⟨ProductResponse.ofProduct p, pyRound4 m.score⟩ := by
                  simp [searchStep, hsc, heq, hact]
                have hr : r = ⟨ProductResponse.ofProduct p, pyRound4 m.score⟩ := by
                  unfold mkSearchResult at hmk
                  split at hmk
                  · cases hmk; rfl
                  · exact absurd hmk (by simp)
                rw [hstep, hr, ← ih rs hrec]
              case h_2 e hrec => exact absurd h (by simp)
            case h_2 e hmk => exact absurd h (by simp)
          case isFalse hact =>
            have hstep : searchStep products minScore m = none := by
              simp only [Bool.not_eq_true] at hact
              simp [searchStep, hsc, heq, hact]
            rw [hstep]
            exact ih l h
        case h_2 heq =>
          have hstep : searchStep products minScore m = none := by
            simp [searchStep, hsc, heq]
          rw [hstep]
          exact ih l h
      case isFalse hsc =>
        have hstep : searchStep products minScore m = none := by
          simp [searchStep, hsc]
        rw [hstep]
        exact ih l h

/-- C1: for every query and database state, a successful
`PineconeService.search` returns only items whose similarity is in `[0, 1]`,
is rounded to 4 decimal places, and is at least `min_score` (defaulting to
the configured `0.3`, assumed expressible at 4 decimal places, as `0.3` is);
every returned item's catalog record exists and is active at call time; and
the list is sorted by non-increasing similarity.  The index oracle is assumed
to honour the cosine-similarity contract (scores in `[0, 1]`, matches ordered
by non-increasing score). -/
theorem search_results_sorted_bounded_active
    (index : VectorIndex) (products : List Product) (query : String)
    (top_k : ℕ) (category_filter : Option String)
    (min_price max_price min_score : Option ℚ)
    (out : List SearchResult) (k : ℤ)
    (hexact : min_score.getD (3/10) = (k : ℚ) / 10000)
    (hrange : ∀ m ∈ index query top_k (buildFilter category_filter min_price max_price),
        0 ≤ m.score ∧ m.score ≤ 1)
    (hsorted : List.Pairwise (fun a b => b.score ≤ a.score)
        (index query top_k (buildFilter category_filter min_price max_price)))
    (hok : PineconeService.search index products query top_k category_filter
        min_price max_price min_score = .ok out) :
    List.Pairwise (fun a b => b.similarity ≤ a.similarity) out
    ∧ ∀ r ∈ out,
        (0 ≤ r.similarity ∧ r.similarity ≤ 1)
        ∧ (∃ j : ℤ, r.similarity = (j : ℚ) / 10000)
        ∧ min_score.getD (3/10) ≤ r.similarity
        ∧ ∃ p, products.find? (fun p0 => p0.id == r.product.id) = some p
            ∧ p.is_active = true ∧ r.product = ProductResponse.ofProduct p := by
  unfold PineconeService.search at hok
  have hout := searchLoop_ok_eq products (min_score.getD (3/10))
    (index query top_k (buildFilter category_filter min_price max_price)) out hok
  subst hout
  constructor
  · rw [List.pairwise_filterMap]
    refine List.Pairwise.imp ?_ hsorted
    intro a b hab x hx y hy
    obtain ⟨_, hxs, _⟩ := searchStep_eq_some (Option.mem_def.mp hx)
    obtain ⟨_, hys, _⟩ := searchStep_eq_some (Option.mem_def.mp hy)
    rw [hxs, hys]
    exact pyRound4_mono hab
  · intro r hr
    obtain ⟨m, hm, hstep⟩ := List.mem_filterMap.mp hr
    obtain ⟨hmin, hsim, p, hfind, hact, hprod, hid⟩ := searchStep_eq_some hstep
    obtain ⟨h0, h1⟩ := hrange m hm
    refine ⟨⟨?_, ?_⟩, ?_, ?_, p, ?_, hact, hprod⟩
    · rw [hsim]; exact pyRound4_nonneg h0
    · rw [hsim]; exact pyRound4_le_one h1
    · exact ⟨roundHalfEven (m.score * 10000), by rw [hsim]; rfl⟩
    · rw [hsim]; exact pyRound4_ge_exact k hexact hmin
    · rw [hid]; exact hfind

/-- Witness for C1: the theorem applied to a concrete index, catalog and
query. -/
theorem search_results_sorted_bounded_active_witness :
    List.Pairwise (fun a b => b.similarity ≤ a.similarity)
      [({ product := ProductResponse.ofProduct prodA, similarity := 9/10 } : SearchResult)]
    ∧ ∀ r ∈ [({ product := ProductResponse.ofProduct prodA, similarity := 9/10 } : SearchResult)],
        (0 ≤ r.similarity ∧ r.similarity ≤ 1)
        ∧ (∃ j : ℤ, r.similarity = (j : ℚ) / 10000)
        ∧ (none : Option ℚ).getD (3/10) ≤ r.similarity
        ∧ ∃ p, [prodA].find? (fun p0 => p0.id == r.product.id) = some p
            ∧ p.is_active = true ∧ r.product = ProductResponse.ofProduct p :=
  search_results_sorted_bounded_active idx1 [prodA] "headphones" 10 none none none
    none _ 3000 (by norm_num)
    (by intro m hm; simp only [idx1, List.mem_singleton] at hm; subst hm; norm_num)
    (by simp [idx1])
    (by norm_num [PineconeService.search, searchLoop, idx1, buildFilter, prodA,
          mkSearchResult, pyRound4, roundHalfEven])

/-- C6: for every product identifier and every `k ≥ 0`, a successful
`PineconeService.find_similar_products` never returns the source product and
returns at most `k` items; and (when the source product exists) it is
computed by searching with `top_k = k + 1` and the lowered floor `0.2`, then
filtering out the source product and truncating to `k`. -/
theorem find_similar_excludes_source_and_bounded
    (index : VectorIndex) (products : List Product) (product_id : ℤ) (k : ℕ)
    (out : List SearchResult)
    (hok : PineconeService.find_similar_products index products product_id k =
      .ok out) :
    (∀ r ∈ out, r.product.id ≠ product_id)
    ∧ out.length ≤ k
    ∧ ∀ p, products.find? (fun p0 => p0.id == product_id) = some p →
        PineconeService.find_similar_products index products product_id k =
          (PineconeService.search index products (productToText p) (k + 1)
              none none none (some (2/10))).map
            (fun res => (res.filter (fun r => r.product.id != product_id)).take k) := by
  have h12 : (∀ r ∈ out, r.product.id ≠ product_id) ∧ out.length ≤ k := by
    unfold PineconeService.find_similar_products at hok
    split at hok
    · cases hok
      exact ⟨by simp, by simp⟩
    · split at hok
      · cases hok
        constructor
        · intro r hr
          have h1 := List.take_subset _ _ hr
          have h2 := (List.mem_filter.mp h1).2
          simpa using h2
        · rw [List.length_take]
          exact min_le_left _ _
      · exact absurd hok (by simp)
  refine ⟨h12.1, h12.2, ?_⟩
  intro p hp
  unfold PineconeService.find_similar_products
  simp only [hp]
  cases hsearch : PineconeService.search index products (productToText p) (k + 1)
      none none none (some (2/10)) with
  | ok res => simp [Except.map]
  | error e => simp [Except.map]

/-- Witness for C6: the theorem applied to a concrete index and catalog (the
sole match is the source product itself, so the result is empty). -/
theorem find_similar_excludes_source_and_bounded_witness :
    (∀ r ∈ ([] : List SearchResult), r.product.id ≠ 1)
    ∧ ([] : List SearchResult).length ≤ 1
    ∧ ∀ p, [prodA].find? (fun p0 => p0.id == 1) = some p →
        PineconeService.find_similar_products idx1 [prodA] 1 1 =
          (PineconeService.search idx1 [prodA] (productToText p) (1 + 1)
              none none none (some (2/10))).map
            (fun res => (res.filter (fun r => r.product.id != 1)).take 1) :=
  find_similar_excludes_source_and_bounded idx1 [prodA] 1 1 []
    (by norm_num [PineconeService.find_similar_products, PineconeService.search,
          searchLoop, idx1, buildFilter, prodA, mkSearchResult, pyRound4,
          roundHalfEven, ProductResponse.ofProduct])

/-- C3: whenever the chat-completion call inside
`GroqLLMService.classify_intent` raises (transport or parse failure), the
returned classification is intent `unknown`, confidence `0.0`, an empty
entity set (every field absent), `requires_clarification = true` with a
non-empty clarification question — and, the return type being plain (not
exception-carrying), no exception reaches the caller. -/
theorem classify_intent_failure_path (message : String)
    (history : List (String × String)) (e : String) :
    (classify_intent message history (.error e)).intent = Intent.unknown
    ∧ (classify_intent message history (.error e)).confidence = 0
    ∧ (classify_intent message history (.error e)).entities =
        { product_names := none, categories := none, brands := none
        , price_min := none, price_max := none, order_id := none
        , quantity := none, attributes := none }
    ∧ (classify_intent message history (.error e)).requires_clarification = true
    ∧ ∃ q, (classify_intent message history (.error e)).clarification_question = some q
        ∧ q ≠ "" :=
  ⟨rfl, rfl, rfl, rfl, _, rfl, by decide⟩

/-- Counterexample for C5: a provider message carrying neither tool calls nor
content makes `call_with_tools` return a response whose `content` is empty
and whose `tool_calls` is `None` — neither of the two fields is populated,
contradicting the claimed "exactly one". -/
theorem call_with_tools_counterexample :
    (call_with_tools (.ok { content := none, tool_calls := none })).content = ""
    ∧ (call_with_tools (.ok { content := none, tool_calls := none })).tool_calls = none
    ∧ ¬((∃ l, (call_with_tools (.ok ({ content := none, tool_calls := none } :
            ProviderMessage))).tool_calls = some l ∧ l ≠ [])
        ∨ (call_with_tools (.ok ({ content := none, tool_calls := none } :
            ProviderMessage))).content ≠ "") := by
  refine ⟨rfl, rfl, ?_⟩
  rintro (⟨l, hl, _⟩ | hc)
  · exact absurd hl (by simp [call_with_tools])
  · exact hc rfl

/-- C5 (amended): `call_with_tools` returns either a non-empty tool-call list
with empty content, or `tool_calls = None` with the provider's text as
content — which is empty exactly when the provider supplied neither tool
calls nor content; on failure of the provider call it returns the error
described as non-empty final text with no tool calls. -/
theorem call_with_tools_shape (pr : Except String ProviderMessage) :
    ((∃ l, (call_with_tools pr).tool_calls = some l ∧ l ≠ []
        ∧ (call_with_tools pr).content = "")
      ∨ (call_with_tools pr).tool_calls = none)
    ∧ (∀ e, pr = .error e →
        (call_with_tools pr).content = "I encountered an error: " ++ e
        ∧ (call_with_tools pr).content ≠ ""
        ∧ (call_with_tools pr).tool_calls = none)
    ∧ (∀ msg, pr = .ok msg → msg.tool_calls = none ∨ msg.tool_calls = some [] →
        (call_with_tools pr).content = msg.content.getD ""
        ∧ (call_with_tools pr).tool_calls = none) := by
  refine ⟨?_, ?_, ?_⟩
  · cases pr with
    | error e => exact Or.inr rfl
    | ok msg =>
        cases htc : msg.tool_calls with
        | none => exact Or.inr (by simp [call_with_tools, htc])
        | some tcs =>
            cases tcs with
            | nil => exact Or.inr (by simp [call_with_tools, htc])
            | cons tc rest =>
                cases hp : parseToolCalls (tc :: rest) with
                | ok reqs =>
                    refine Or.inl ⟨reqs, by simp [call_with_tools, htc, hp], ?_,
                      by simp [call_with_tools, htc, hp]⟩
                    intro hnil
                    subst hnil
                    unfold parseToolCalls at hp
                    split at hp
                    · split at hp <;> simp_all
                    · simp_all
                | error e => exact Or.inr (by simp [call_with_tools, htc, hp])
  · rintro e rfl
    refine ⟨rfl, ?_, rfl⟩
    intro h
    have hc : (call_with_tools (Except.error e)).content =
        "I encountered an error: " ++ e := rfl
    rw [hc] at h
    have h2 := congrArg String.length h
    rw [String.length_append] at h2
    have h3 : ("I encountered an error: ").length = 24 := rfl
    have h4 : ("" : String).length = 0 := rfl
    omega
  · rintro msg rfl htc
    cases htc with
    | inl h => exact ⟨by simp [call_with_tools, h], by simp [call_with_tools, h]⟩
    | inr h => exact ⟨by simp [call_with_tools, h], by simp [call_with_tools, h]⟩

/-- Witness for C5: the shape theorem applied to the failure outcome and to a
plain-text outcome, with both hypotheses discharged at concrete inputs. -/
theorem call_with_tools_shape_witness :
    ((call_with_tools (.error "timeout")).content =
        "I encountered an error: " ++ "timeout"
      ∧ (call_with_tools (.error "timeout")).content ≠ ""
      ∧ (call_with_tools (.error "timeout")).tool_calls = none)
    ∧ ((call_with_tools (.ok { content := some "Hello!", tool_calls := none })).content
          = (some "Hello!").getD ""
      ∧ (call_with_tools (.ok { content := some "Hello!", tool_calls := none })).tool_calls
          = none) :=
  ⟨(call_with_tools_shape (.error "timeout")).2.1 "timeout" rfl,
   (call_with_tools_shape (.ok { content := some "Hello!", tool_calls := none })).2.2
     { content := some "Hello!", tool_calls := none } rfl (Or.inl rfl)⟩

theorem append_ne_empty_of_left_ne (s t : String) (hs : s.length ≠ 0) :
    s ++ t ≠ "" := by
  intro h
  have h2 := congrArg String.length h
  rw [String.length_append] at h2
  have h4 : ("" : String).length = 0 := rfl
  omega

/-- Case characterization of `executeTool`: every call returns either a
success carrying no error message, or a failure carrying a message that is
non-empty unless it is the text of an exception raised by the downstream
retrieval service. -/
theorem executeTool_cases (env : ToolEnv) (db : Db) (cid : String)
    (name : String) (args : ToolArgs) (uid : Option ℤ) :
    ((executeTool env db cid name args uid).success = true
      ∧ (executeTool env db cid name args uid).error_message = none)
    ∨ ((executeTool env db cid name args uid).success = false
      ∧ ∃ m, (executeTool env db cid name args uid).error_message = some m
        ∧ (m ≠ ""
           ∨ (∃ q k c a b, env.search q k c a b = Except.error m)
           ∨ ∃ p k2, env.findSimilar p k2 = Except.error m)) := by
  unfold executeTool
  split
  · -- search_products
    split
    · exact Or.inl ⟨rfl, rfl⟩
    · next e heq =>
        exact Or.inr ⟨rfl, e, rfl, Or.inr (Or.inl ⟨_, _, _, _, _, heq⟩)⟩
  · -- get_product_details
    split
    · exact Or.inl ⟨rfl, rfl⟩
    · exact Or.inr ⟨rfl, "Product not found", rfl, Or.inl (by decide)⟩
    · next e heq =>
        refine Or.inr ⟨rfl, e, rfl, ?_⟩
        unfold getProductDetailsLookup at heq
        split at heq
        · simp at heq
        · split at heq
          · split at heq
            · simp at heq
            · simp at heq
            · next e2 heq2 =>
                cases heq
                exact Or.inr (Or.inl ⟨_, _, _, _, _, heq2⟩)
          · simp at heq
  · -- get_recommendations
    split
    · exact Or.inl ⟨rfl, rfl⟩
    · next e heq =>
        refine Or.inr ⟨rfl, e, rfl, ?_⟩
        unfold getRecommendationResults at heq
        split at heq
        · exact Or.inr (Or.inr ⟨_, _, heq⟩)
        · split at heq
          · exact Or.inr (Or.inl ⟨_, _, _, _, _, heq⟩)
          · simp at heq
  · -- check_order_status
    split
    · exact Or.inr ⟨rfl, _, rfl, Or.inl (by decide)⟩
    · split
      · exact Or.inl ⟨rfl, rfl⟩
      · exact Or.inr ⟨rfl, "Order not found", rfl, Or.inl (by decide)⟩
  · -- get_user_orders
    split
    · exact Or.inl ⟨rfl, rfl⟩
    · exact Or.inr ⟨rfl, _, rfl, Or.inl (by decide)⟩
  · -- unknown tool
    exact Or.inr ⟨rfl, _, rfl, Or.inl
      (append_ne_empty_of_left_ne "Unknown tool: " name (by decide))⟩

/-- Counterexample for C2: when a downstream call raises an exception whose
text is empty (`str(e) = ""`), `execute_tool` returns a failed `ToolResult`
whose error message is the empty string — not a non-empty message as
claimed. -/
theorem execute_tool_counterexample_empty_error :
    (executeTool (envErr "") {} "cid" "search_products" {} none).success = false
    ∧ (executeTool (envErr "") {} "cid" "search_products" {} none).error_message = some ""
    ∧ ¬∃ m, (executeTool (envErr "") {} "cid" "search_products" {} none).error_message
        = some m ∧ m ≠ "" := by
  refine ⟨rfl, rfl, ?_⟩
  rintro ⟨m, hm, hne⟩
  have h0 : (executeTool (envErr "") {} "cid" "search_products" {} none).error_message
      = some "" := rfl
  rw [h0] at hm
  cases hm
  exact hne rfl

/-- C2 (amended): `execute_tool` is total — it returns a `ToolResult` for
every tool name and argument mapping, never raising; every failing path sets
an error message; the message is non-empty on the unknown-tool,
missing-required-argument, entity-not-found and unauthenticated paths, and
contains the tool name for an unregistered tool; on a downstream exception
the message is the exception's text, hence non-empty whenever that text
is. -/
theorem execute_tool_total_and_failure_messages
    (env : ToolEnv) (db : Db) (cid : String) (name : String) (args : ToolArgs)
    (uid : Option ℤ) :
    ((executeTool env db cid name args uid).success = false →
      ∃ m, (executeTool env db cid name args uid).error_message = some m)
    ∧ (name ∉ registeredTools →
        (executeTool env db cid name args uid).success = false
        ∧ (executeTool env db cid name args uid).error_message =
            some ("Unknown tool: " ++ name)
        ∧ (∃ s, "Unknown tool: " ++ name = s ++ name)
        ∧ "Unknown tool: " ++ name ≠ "")
    ∧ (name = "check_order_status" → args.order_id = none →
        (executeTool env db cid name args uid).success = false
        ∧ (executeTool env db cid name args uid).error_message =
            some "\x27order_id\x27")
    ∧ (name = "check_order_status" → ∀ oid, args.order_id = some oid →
        db.orders.find? (fun o => o.id == oid) = none →
        (executeTool env db cid name args uid).success = false
        ∧ (executeTool env db cid name args uid).error_message =
            some "Order not found")
    ∧ (name = "get_user_orders" → truthyInt uid = false →
        (executeTool env db cid name args uid).success = false
        ∧ (executeTool env db cid name args uid).error_message =
            some "Please log in to view your orders")
    ∧ ((∀ q k c a b e0, env.search q k c a b = .error e0 → e0 ≠ "") →
       (∀ p k2 e0, env.findSimilar p k2 = .error e0 → e0 ≠ "") →
       (executeTool env db cid name args uid).success = false →
       ∃ m, (executeTool env db cid name args uid).error_message = some m
         ∧ m ≠ "") := by
  refine ⟨?_, ?_, ?_, ?_, ?_, ?_⟩
  · intro hfail
    rcases executeTool_cases env db cid name args uid with ⟨hs, _⟩ | ⟨_, m, hm, _⟩
    · rw [hs] at hfail; simp at hfail
    · exact ⟨m, hm⟩
  · intro hname
    unfold executeTool
    split
    · exact absurd (by decide) hname
    · exact absurd (by decide) hname
    · exact absurd (by decide) hname
    · exact absurd (by decide) hname
    · exact absurd (by decide) hname
    · exact ⟨rfl, rfl, ⟨"Unknown tool: ", rfl⟩,
        append_ne_empty_of_left_ne _ _ (by decide)⟩
  · rintro rfl horder
    simp [executeTool, horder]
  · rintro rfl oid hoid hfind
    simp [executeTool, hoid, hfind]
  · rintro rfl huid
    simp [executeTool, huid]
  · intro hsearch hsim hfail
    rcases executeTool_cases env db cid name args uid with ⟨hs, _⟩ | ⟨_, m, hm, hcase⟩
    · rw [hs] at hfail; simp at hfail
    · refine ⟨m, hm, ?_⟩
      rcases hcase with hne | ⟨q, k, c, a, b, he⟩ | ⟨p, k2, he⟩
      · exact hne
      · exact hsearch q k c a b m he
      · exact hsim p k2 m he

/-- Witness for C2: the amended theorem applied at concrete inputs — an
unregistered tool name, a missing `order_id`, an unauthenticated
`get_user_orders` call, and a downstream failure with non-empty exception
text. -/
theorem execute_tool_total_and_failure_messages_witness :
    ((executeTool (envErr "boom") {} "cid" "frobnicate" {} none).success = false
      ∧ (executeTool (envErr "boom") {} "cid" "frobnicate" {} none).error_message =
          some ("Unknown tool: " ++ "frobnicate")
      ∧ (∃ s, "Unknown tool: " ++ "frobnicate" = s ++ "frobnicate")
      ∧ "Unknown tool: " ++ "frobnicate" ≠ "")
    ∧ ((executeTool (envErr "boom") {} "cid" "check_order_status" {} none).success = false
      ∧ (executeTool (envErr "boom") {} "cid" "check_order_status" {} none).error_message =
          some "\x27order_id\x27")
    ∧ ((executeTool (envErr "boom") {} "cid" "get_user_orders" {} none).success = false
      ∧ (executeTool (envErr "boom") {} "cid" "get_user_orders" {} none).error_message =
          some "Please log in to view your orders")
    ∧ ∃ m, (executeTool (envErr "boom") {} "cid" "search_products" {} none).error_message
        = some m ∧ m ≠ "" :=
  ⟨(execute_tool_total_and_failure_messages (envErr "boom") {} "cid" "frobnicate"
      {} none).2.1 (by decide),
   (execute_tool_total_and_failure_messages (envErr "boom") {} "cid" "check_order_status"
      {} none).2.2.1 rfl rfl,
   (execute_tool_total_and_failure_messages (envErr "boom") {} "cid" "get_user_orders"
      {} none).2.2.2.2.1 rfl rfl,
   (execute_tool_total_and_failure_messages (envErr "boom") {} "cid" "search_products"
      {} none).2.2.2.2.2
     (by intro q k c a b e0 he; cases he; decide)
     (by intro p k2 e0 he; cases he; decide)
     rfl⟩

/-- Counterexample for C8: against the instrumented retrieval stub (which
returns exactly as many hits as requested), `get_recommendations` with
caller-supplied limit `100` requests — and returns — 100 results, while
`search_products` with the same limit is clamped to 10.  The requested count
for `get_recommendations` is not capped at the fixed maximum. -/
theorem tool_limit_counterexample :
    ∃ l1 l2,
      (executeTool envProbe {} "cid" "search_products"
          { query := some "q", limit := some 100 } none).result =
        some (.searchList l1) ∧ l1.length = 10
      ∧ (executeTool envProbe {} "cid" "get_recommendations"
          { preferences := some "beach gear", limit := some 100 } none).result =
        some (.searchList l2) ∧ l2.length = 100 :=
  ⟨_, _, rfl, rfl, rfl, rfl⟩

/-- C8 (amended): `search_products` clamps the count requested from the
retrieval layer to `min(limit, 10)` (default 5, hence never above 10);
`get_recommendations` forwards the caller-supplied limit to the retrieval
layer unclamped (default 5).  Observed against the instrumented stub that
returns exactly as many hits as requested. -/
theorem tool_limit_clamping (db : Db) (cid : String) (uid : Option ℤ)
    (n : ℤ) (q : String) :
    (executeTool envProbe db cid "search_products"
        { query := some q, limit := some n } uid).result =
      some (.searchList ((List.replicate (min n 10).toNat probeHit).map
        searchResultToDict))
    ∧ (min n 10).toNat ≤ 10
    ∧ (executeTool envProbe db cid "get_recommendations"
        { preferences := some "beach gear", limit := some n } uid).result =
      some (.searchList ((List.replicate n.toNat probeHit).map
        searchResultToDict)) := by
  refine ⟨rfl, ?_, rfl⟩
  have h := min_le_right n 10
  omega

/-- C10: `check_order_status` is not identity-scoped — the caller identity
argument has no effect on its output, and when the order exists the result
carries its status, total amount, creation time and shipping address
regardless of who owns the order. -/
theorem check_order_status_identity_independent
    (env : ToolEnv) (db : Db) (cid : String) (args : ToolArgs)
    (u1 u2 : Option ℤ) :
    executeTool env db cid "check_order_status" args u1 =
      executeTool env db cid "check_order_status" args u2
    ∧ ∀ oid o, args.order_id = some oid →
        db.orders.find? (fun x => x.id == oid) = some o →
        executeTool env db cid "check_order_status" args u1 =
          { call_id := cid, tool_name := "check_order_status"
          , result := some (.orderStatus o.id o.status o.total_amount
              o.created_at o.shipping_address)
          , success := true, error_message := none } := by
  constructor
  · rfl
  · intro oid o hoid hfind
    simp [executeTool, hoid, hfind]

/-- Witness for C10: an unauthenticated caller and an unrelated user get the
identical order-status payload for order 42 (owned by user 7). -/
theorem check_order_status_identity_independent_witness :
    executeTool (envErr "boom") dbOrder "cid" "check_order_status"
        { order_id := some 42 } none =
      executeTool (envErr "boom") dbOrder "cid" "check_order_status"
        { order_id := some 42 } (some 99)
    ∧ executeTool (envErr "boom") dbOrder "cid" "check_order_status"
        { order_id := some 42 } none =
      { call_id := "cid", tool_name := "check_order_status"
      , result := some (.orderStatus orderA.id orderA.status orderA.total_amount
          orderA.created_at orderA.shipping_address)
      , success := true, error_message := none } :=
  ⟨(check_order_status_identity_independent (envErr "boom") dbOrder "cid"
      { order_id := some 42 } none (some 99)).1,
   (check_order_status_identity_independent (envErr "boom") dbOrder "cid"
      { order_id := some 42 } none (some 99)).2 42 orderA rfl rfl⟩

/-! ### Tool-loop lemmas -/

theorem toolLoopAux_calls_le (oracle : List AccumEntry → LLMResponse)
    (exec : String → ToolArgs → ToolResult) (db : Db) :
    ∀ (fuel : ℕ) (acc : List AccumEntry) (tr : List ToolResult)
      (tcm : List String) (sg : List ProductResponse),
      (toolLoopAux oracle exec db fuel acc tr tcm sg).calls ≤ fuel := by
  intro fuel
  induction fuel with
  | zero => intro acc tr tcm sg; simp [toolLoopAux]
  | succ fuel ih =>
      intro acc tr tcm sg
      simp only [toolLoopAux]
      split
      · next tc tcs heq => exact Nat.succ_le_succ (ih _ _ _ _)
      · split <;> exact Nat.succ_le_succ (Nat.zero_le _)

/-- C4: for a product-intent turn, the tool loop calls `call_with_tools` at
most `max_tool_iterations` times; a round that returns no tool invocations
makes its returned text the loop's response and terminates the loop in that
single round; and when the loop ends without non-empty text, the response is
produced by `generate_response` grounded on the accumulated tool results. -/
theorem tool_loop_iteration_bound_and_fallback
    (oracle : List AccumEntry → LLMResponse)
    (exec : String → ToolArgs → ToolResult) (db : Db)
    (genResp : List AccumEntry → String) (maxIter : ℕ) :
    (toolLoopAux oracle exec db maxIter [] [] [] []).calls ≤ maxIter
    ∧ (∀ fuel acc tr tcm sg,
        ((oracle acc).tool_calls = none ∨ (oracle acc).tool_calls = some []) →
        toolLoopAux oracle exec db (fuel + 1) acc tr tcm sg =
          { calls := 1, text := (oracle acc).content, accumulated := acc
          , tool_results := tr, tool_calls_made := tcm, suggestions := sg })
    ∧ ((runToolLoop oracle exec db genResp maxIter).2.text = "" →
        (runToolLoop oracle exec db genResp maxIter).1 =
          genResp (runToolLoop oracle exec db genResp maxIter).2.accumulated)
    ∧ ((runToolLoop oracle exec db genResp maxIter).2.text ≠ "" →
        (runToolLoop oracle exec db genResp maxIter).1 =
          (runToolLoop oracle exec db genResp maxIter).2.text) := by
  refine ⟨toolLoopAux_calls_le oracle exec db maxIter [] [] [] [], ?_, ?_, ?_⟩
  · intro fuel acc tr tcm sg h
    rcases h with h | h <;>
    · simp only [toolLoopAux, h]
      split
      · rfl
      · next hc =>
          simp only [ne_eq, not_not] at hc
          rw [hc]
  · intro h
    simp only [runToolLoop] at h ⊢
    rw [if_neg (by simpa using h)]
  · intro h
    simp only [runToolLoop] at h ⊢
    rw [if_pos (by simpa using h)]

/-- Witness for C4: the bound, the single-round termination and the
no-fallback case evaluated with a gateway stub that immediately returns
text. -/
theorem tool_loop_iteration_bound_and_fallback_witness :
    (toolLoopAux oracleFix execFix {} 3 [] [] [] []).calls ≤ 3
    ∧ toolLoopAux oracleFix execFix {} 3 [] [] [] [] =
        { calls := 1, text := (oracleFix []).content, accumulated := []
        , tool_results := [], tool_calls_made := [], suggestions := [] }
    ∧ (runToolLoop oracleFix execFix {} genRespFix 3).1 =
        (runToolLoop oracleFix execFix {} genRespFix 3).2.text :=
  ⟨(tool_loop_iteration_bound_and_fallback oracleFix execFix {} genRespFix 3).1,
   (tool_loop_iteration_bound_and_fallback oracleFix execFix {} genRespFix 3).2.1
     2 [] [] [] [] (Or.inl rfl),
   (tool_loop_iteration_bound_and_fallback oracleFix execFix {} genRespFix 3).2.2.2
     (by decide)⟩

/-- Counterexample for C7: entities that contain the order id `0` (an
integer the classifier may extract) are treated as containing no order id —
Python truthiness makes `if intent_result.entities.order_id:` skip the
branch — so no tool is invoked for an unauthenticated caller, although the
claim requires exactly `check_order_status` to be invoked whenever the
entities contain an order id. -/
theorem order_lookup_counterexample :
    (orderLookupBranch { order_id := some 0 } none execFix genRespFix).2.2.1 = []
    ∧ ({ order_id := some 0 } : ExtractedEntities).order_id = some 0
    ∧ ¬(orderLookupBranch { order_id := some 0 } none execFix genRespFix).2.2.1 =
        ["check_order_status"] := by
  refine ⟨rfl, rfl, ?_⟩
  intro h
  have h0 : (orderLookupBranch { order_id := some 0 } none execFix
      genRespFix).2.2.1 = [] := rfl
  rw [h0] at h
  cases h

/-- C7 (amended): for an order-intent turn, if the entities carry a
*nonzero* order id, exactly `check_order_status` is invoked with it;
otherwise, if a *nonzero* caller id is supplied, exactly `get_user_orders`
is invoked; otherwise no tool is invoked (in particular when the extracted
order id or caller id is `0`, which Python truthiness conflates with
absence); in every case the response is synthesized by `generate_response`
grounded on the gathered results, and an unauthenticated caller with no
(truthy) order id gets a bundle with `tool_calls_made = None`, no
suggestions, and a response still produced from the empty tool context. -/
theorem order_lookup_branch_spec (entities : ExtractedEntities)
    (uid : Option ℤ) (exec : String → ToolArgs → ToolResult)
    (genResp : List AccumEntry → String) (sid : String) (intent : Intent) :
    (∀ oid, entities.order_id = some oid → oid ≠ 0 →
      orderLookupBranch entities uid exec genResp =
        (genResp [{ tool := "check_order_status"
                  , result := (exec "check_order_status"
                      { order_id := some oid }).result }],
         [exec "check_order_status" { order_id := some oid }],
         ["check_order_status"],
         [{ tool := "check_order_status"
          , result := (exec "check_order_status"
              { order_id := some oid }).result }]))
    ∧ (truthyInt entities.order_id = false → ∀ u, uid = some u → u ≠ 0 →
        orderLookupBranch entities uid exec genResp =
          (genResp [{ tool := "get_user_orders"
                    , result := (exec "get_user_orders" {}).result }],
           [exec "get_user_orders" {}],
           ["get_user_orders"],
           [{ tool := "get_user_orders"
            , result := (exec "get_user_orders" {}).result }]))
    ∧ (truthyInt entities.order_id = false → truthyInt uid = false →
        orderLookupBranch entities uid exec genResp = (genResp [], [], [], []))
    ∧ (processOrderIntent sid intent entities uid exec genResp).response =
        genResp (orderLookupBranch entities uid exec genResp).2.2.2
    ∧ (truthyInt entities.order_id = false → truthyInt uid = false →
        (processOrderIntent sid intent entities uid exec genResp).tool_calls_made
          = none
        ∧ (processOrderIntent sid intent entities uid exec genResp).suggestions
          = none
        ∧ (processOrderIntent sid intent entities uid exec genResp).response
          = genResp []) := by
  refine ⟨?_, ?_, ?_, rfl, ?_⟩
  · intro oid hoid h0
    have ht : truthyInt (some oid) = true := by simp [truthyInt, h0]
    simp [orderLookupBranch, hoid, ht]
  · intro hf u hu h0
    have ht : truthyInt uid = true := by simp [truthyInt, hu, h0]
    simp [orderLookupBranch, hf, ht]
  · intro hf hu
    simp [orderLookupBranch, hf, hu]
  · intro hf hu
    have hb : orderLookupBranch entities uid exec genResp =
        (genResp [], [], [], []) := by
      simp [orderLookupBranch, hf, hu]
    refine ⟨?_, rfl, ?_⟩
    · simp [processOrderIntent, hb]
    · simp [processOrderIntent, hb]

/-- Witness for C7: the amended branch behaviour evaluated at a nonzero
order id, and the unauthenticated no-order-id bundle shape. -/
theorem order_lookup_branch_spec_witness :
    orderLookupBranch { order_id := some 42 } none execFix genRespFix =
      (genRespFix [{ tool := "check_order_status"
                   , result := (execFix "check_order_status"
                       { order_id := some 42 }).result }],
       [execFix "check_order_status" { order_id := some 42 }],
       ["check_order_status"],
       [{ tool := "check_order_status"
        , result := (execFix "check_order_status"
            { order_id := some 42 }).result }])
    ∧ ((processOrderIntent "s1" Intent.order_status {} none execFix
          genRespFix).tool_calls_made = none
      ∧ (processOrderIntent "s1" Intent.order_status {} none execFix
          genRespFix).suggestions = none
      ∧ (processOrderIntent "s1" Intent.order_status {} none execFix
          genRespFix).response = genRespFix []) :=
  ⟨(order_lookup_branch_spec { order_id := some 42 } none execFix genRespFix
      "s1" Intent.order_status).1 42 rfl (by decide),
   (order_lookup_branch_spec {} none execFix genRespFix
      "s1" Intent.order_status).2.2.2.2 rfl rfl⟩

/-! ### Persistence lemmas -/

theorem saveAll_eq (sid : String) :
    ∀ (ws : List WriteReq) (store : MessageStore),
      saveAll store sid ws = store ++ mkMessages sid ws store.length := by
  intro ws
  induction ws with
  | nil => intro store; simp [saveAll, mkMessages]
  | cons w ws ih =>
      intro store
      simp only [saveAll]
      rw [ih]
      have hsm : saveMessage store sid w.role w.content w.intent w.entities
          w.tool_calls w.tool_results w.ts =
            store ++ [mkMessage sid w store.length] := rfl
      rw [hsm]
      simp [mkMessages, List.append_assoc, List.length_append]

theorem mkMessages_filter (sid : String) :
    ∀ (ws : List WriteReq) (n : ℕ),
      (mkMessages sid ws n).filter (fun m => m.session_id == sid) =
        mkMessages sid ws n := by
  intro ws
  induction ws with
  | nil => intro n; simp [mkMessages]
  | cons w ws ih =>
      intro n
      simp [mkMessages, mkMessage, List.filter_cons, ih]

theorem mkMessages_created_mem (sid : String) :
    ∀ (ws : List WriteReq) (n : ℕ) (m : ConversationMessage),
      m ∈ mkMessages sid ws n → m.created_at ∈ ws.map (fun w => w.ts) := by
  intro ws
  induction ws with
  | nil => intro n m hm; simp [mkMessages] at hm
  | cons w ws ih =>
      intro n m hm
      simp only [mkMessages, List.mem_cons] at hm
      rcases hm with rfl | hm
      · simp [mkMessage]
      · simp only [List.map_cons, List.mem_cons]
        exact Or.inr (ih (n + 1) m hm)

theorem mkMessages_pairwise (sid : String) :
    ∀ (ws : List WriteReq) (n : ℕ),
      ws.Pairwise (fun a b => a.ts < b.ts) →
      (mkMessages sid ws n).Pairwise
        (fun a b => a.created_at < b.created_at) := by
  intro ws
  induction ws with
  | nil => intro n _; simp [mkMessages]
  | cons w ws ih =>
      intro n h
      rw [List.pairwise_cons] at h
      simp only [mkMessages]
      rw [List.pairwise_cons]
      constructor
      · intro b hb
        have hmem := mkMessages_created_mem sid ws (n + 1) b hb
        obtain ⟨w2, hw2, heq⟩ := List.mem_map.mp hmem
        have hlt := h.1 w2 hw2
        simp only [mkMessage]
        rw [← heq]
        exact hlt
      · exact ih (n + 1) h.2

theorem mkMessages_map_rc (sid : String) :
    ∀ (ws : List WriteReq) (n : ℕ),
      (mkMessages sid ws n).map (fun m => (m.role, m.content)) =
        ws.map (fun w => (w.role, w.content)) := by
  intro ws
  induction ws with
  | nil => intro n; simp [mkMessages]
  | cons w ws ih => intro n; simp [mkMessages, mkMessage, ih]

theorem mkMessages_length (sid : String) :
    ∀ (ws : List WriteReq) (n : ℕ),
      (mkMessages sid ws n).length = ws.length := by
  intro ws
  induction ws with
  | nil => intro n; simp [mkMessages]
  | cons w ws ih => intro n; simp [mkMessages, ih]

/-- A strictly ascending (by `created_at`) list is sent to its reverse by
the descending stable sort that models `order_by(created_at.desc())`. -/
theorem mergeSort_desc_of_ascending {l : List ConversationMessage}
    (h : l.Pairwise (fun a b => a.created_at < b.created_at)) :
    l.mergeSort (fun a b => decide (b.created_at ≤ a.created_at)) =
      l.reverse := by
  haveI : IsAntisymm ConversationMessage
      (fun a b => b.created_at < a.created_at) :=
    ⟨fun a b h1 h2 => absurd h2 (Nat.lt_asymm h1)⟩
  have hperm : List.Perm
      (l.mergeSort (fun a b => decide (b.created_at ≤ a.created_at)))
      l.reverse :=
    (List.mergeSort_perm l _).trans (List.reverse_perm l).symm
  have hs1 : List.Sorted
      (fun a b : ConversationMessage => b.created_at < a.created_at)
      (l.mergeSort (fun a b => decide (b.created_at ≤ a.created_at))) := by
    have hsorted : (l.mergeSort (fun a b => decide (b.created_at ≤ a.created_at))).Pairwise
        (fun a b : ConversationMessage =>
          decide (b.created_at ≤ a.created_at) = true) :=
      List.sorted_mergeSort
        (by intro a b c h1 h2; simp at h1 h2 ⊢; omega)
        (by intro a b; simp; omega) l
    have h0 : l.Pairwise (fun a b : ConversationMessage =>
        a.created_at ≠ b.created_at) :=
      h.imp (fun hab => Nat.ne_of_lt hab)
    have hne : (l.mergeSort (fun a b => decide (b.created_at ≤ a.created_at))).Pairwise
        (fun a b : ConversationMessage => a.created_at ≠ b.created_at) :=
      ((List.mergeSort_perm l _).pairwise_iff (fun hab => Ne.symm hab)).mpr h0
    have hcomb := hsorted.and hne
    exact hcomb.imp (fun hab => by
      obtain ⟨h1, h2⟩ := hab
      simp at h1
      omega)
  have hs2 : List.Sorted
      (fun a b : ConversationMessage => b.created_at < a.created_at)
      l.reverse :=
    List.pairwise_reverse.mpr h
  exact List.eq_of_perm_of_sorted hperm hs1 hs2

/-- C9: message persistence round-trips in order — after writing `N`
messages for a session (strictly increasing clock ticks) into a store with
no prior rows for that session, reading with `limit ≥ N` returns exactly
those messages' role/content pairs in insertion order; and `_save_message`
is append-only (it never updates or deletes an existing row). -/
theorem message_round_trip_append_only (store0 : MessageStore) (sid : String)
    (writes : List WriteReq) (limit : ℕ)
    (hclean : store0.filter (fun m => m.session_id == sid) = [])
    (hts : writes.Pairwise (fun a b => a.ts < b.ts))
    (hlim : writes.length ≤ limit) :
    getConversationHistory (saveAll store0 sid writes) sid limit =
      writes.map (fun w => (w.role, w.content))
    ∧ ∀ (store : MessageStore) (r c : String) (i e tc trr : Option String)
        (now : ℕ),
        saveMessage store sid r c i e tc trr now =
          store ++ [mkMessage sid ⟨r, c, i, e, tc, trr, now⟩ store.length]
        ∧ (saveMessage store sid r c i e tc trr now).take store.length = store
        ∧ (saveMessage store sid r c i e tc trr now).length =
            store.length + 1 := by
  constructor
  · unfold getConversationHistory
    rw [saveAll_eq, List.filter_append, hclean, mkMessages_filter]
    simp only [List.nil_append]
    rw [mergeSort_desc_of_ascending (mkMessages_pairwise sid writes store0.length hts)]
    rw [List.take_of_length_le
      (by rw [List.length_reverse, mkMessages_length]; exact hlim)]
    rw [List.reverse_reverse]
    exact mkMessages_map_rc sid writes store0.length
  · intro store r c i e tc trr now
    refine ⟨rfl, ?_, by simp [saveMessage]⟩
    have hsm : saveMessage store sid r c i e tc trr now =
        store ++ [mkMessage sid ⟨r, c, i, e, tc, trr, now⟩ store.length] := rfl
    rw [hsm]
    simp

/-- Witness for C9: two messages written to a fresh session read back in
insertion order. -/
theorem message_round_trip_append_only_witness :
    getConversationHistory (saveAll [] "s1"
        [{ role := "user", content := "hi", ts := 0 },
         { role := "assistant", content := "hello", ts := 1 }]) "s1" 20 =
      [("user", "hi"), ("assistant", "hello")]
    ∧ ∀ (store : MessageStore) (r c : String) (i e tc trr : Option String)
        (now : ℕ),
        saveMessage store "s1" r c i e tc trr now =
          store ++ [mkMessage "s1" ⟨r, c, i, e, tc, trr, now⟩ store.length]
        ∧ (saveMessage store "s1" r c i e tc trr now).take store.length = store
        ∧ (saveMessage store "s1" r c i e tc trr now).length =
            store.length + 1 :=
  message_round_trip_append_only [] "s1"
    [{ role := "user", content := "hi", ts := 0 },
     { role := "assistant", content := "hello", ts := 1 }] 20
    rfl (by decide) (by decide)

end ShopAI
